import Mathlib

/-!
Verification of the journald container-logger module
(`src/journald/lib_journald.cpp`) against its natural-language
specification.

The development shallowly embeds `JournaldContainerLoggerProcess::prepare`:

* `std::map<std::string, std::string>` environments become association
  lists (`Env`) with map-style operations (`envErase`, `envSet`, ...);
* stout's `Path::basename` / `Path::dirname` are translated step by step
  (`pathBasename`, `pathDirname`);
* the protobuf `Label` / `Labels` values become plain structures, and
  `stringify(JSON::protobuf(labels))` becomes `labelsJson`;
* the OS calls made by `prepare` (two `::pipe`, two `os::cloexec`, two
  `subprocess` spawns, in program order) are resolved by an oracle `OS`
  recording each call's outcome, and `prepare` returns — besides the
  code's result value — explicit bookkeeping of which descriptors the
  call still holds open at return (`openFds`), which it closed
  (`closedFds`), which sink subprocesses are alive (`sinks`), which were
  killed via `os::killtree` (`killed`), and an event trace (`trace`).

A `CHECK`/`CHECK_GT` failure aborts the process; it is modelled by the
distinguished outcome `Outcome.fatal` carrying the failed condition.
-/

set_option maxHeartbeats 1000000

namespace Journald

/-! ### stout `Path` (stout/path.hpp)

`Path::basename` and `Path::dirname` operate on the raw string with
separator `'/'`, mimicking POSIX `basename(3)` / `dirname(3)`.  The
translations below follow the stout algorithm: first drop trailing
separators (`find_last_not_of`), then split at the last separator. -/

/-- Drop the longest suffix of `cs` whose characters satisfy `p`. -/
def dropTrailingWhile (p : Char → Bool) (cs : List Char) : List Char :=
  (cs.reverse.dropWhile p).reverse

/-- stout `Path::basename`: the final path component. -/
def pathBasename (value : String) : String :=
  let cs := value.data
  let trimmed := dropTrailingWhile (fun c => c == '/') cs
  if trimmed.isEmpty then
    -- Path contained only separators (or was empty).
    if cs.isEmpty then "." else "/"
  else
    String.mk (trimmed.reverse.takeWhile (fun c => c != '/')).reverse

/-- stout `Path::dirname`: the directory component. -/
def pathDirname (value : String) : String :=
  let cs := value.data
  let trimmed := dropTrailingWhile (fun c => c == '/') cs
  if trimmed.isEmpty then
    -- Path contained only separators (or was empty).
    if cs.isEmpty then "." else "/"
  else
    -- Remove the final component.
    let withoutBase := dropTrailingWhile (fun c => c != '/') trimmed
    if withoutBase.isEmpty then
      -- Path contained no separator.
      "."
    else
      -- Remove trailing separators in front of the final component.
      let dir := dropTrailingWhile (fun c => c == '/') withoutBase
      if dir.isEmpty then "/" else String.mk dir

/-! ### Environments (`std::map<std::string, std::string>`)

`os::environment()` yields a map with unique keys; we embed environments
as association lists and give the `std::map` operations used by the code:
`erase`, `count`/membership, `at`/lookup, and `operator[]=` (insert or
overwrite). -/

/-- An environment: an association list of variable/value pairs. -/
abbrev Env := List (String × String)

/-- `environment.count(key) > 0`. -/
def envContainsKey (env : Env) (key : String) : Bool :=
  env.any (fun kv => kv.1 == key)

/-- `environment.erase(key)`: remove every entry with the given key. -/
def envErase (env : Env) (key : String) : Env :=
  env.filter (fun kv => kv.1 != key)

/-- `environment.at(key)` as a partial lookup. -/
def envGet (env : Env) (key : String) : Option String :=
  (env.find? (fun kv => kv.1 == key)).map Prod.snd

/-- Lookup with a default value. -/
def envGetD (env : Env) (key dflt : String) : String :=
  (envGet env key).getD dflt

/-- `environment[key] = value`: insert or overwrite. -/
def envSet (env : Env) (key value : String) : Env :=
  envErase env key ++ [(key, value)]

/-! ### Protobuf values and flags -/

/-- A protobuf `Label`: a key/value pair. -/
structure Label where
  key : String
  value : String
deriving DecidableEq

/-- The fields of `ExecutorInfo` read by `prepare`: the optional
`framework_id` (guarded by `has_framework_id()`), the `executor_id`, and
the optional `labels` (guarded by `has_labels()`). -/
structure ExecutorInfo where
  framework_id : Option String
  executor_id : String
  labels : Option (List Label)

/-- The module flags read by `prepare`. -/
structure Flags where
  libprocess_num_worker_threads : Nat
  companion_dir : String

/-! ### JSON serialization of labels

`stringify(JSON::protobuf(labels))` renders the `Labels` message as
compact JSON: a top-level object with one `labels` array of
`key`/`value` objects. -/

/-- JSON escape for one character. -/
def jsonEscapeChar (c : Char) : String :=
  if c = '"' then "\\\"" else if c = '\\' then "\\\\" else String.mk [c]

/-- JSON escape for a string body. -/
def jsonEscape (s : String) : String :=
  String.join (s.data.map jsonEscapeChar)

/-- One label as a JSON object. -/
def labelJson (l : Label) : String :=
  "\x7b\"key\":\"" ++ jsonEscape l.key ++ "\",\"value\":\"" ++
    jsonEscape l.value ++ "\"\x7d"

/-- A `Labels` message as compact JSON. -/
def labelsJson (ls : List Label) : String :=
  "\x7b\"labels\":[" ++ String.intercalate "," (ls.map labelJson) ++ "]\x7d"

/-! ### Environment composition (lines 68–84) -/

/-- Lines 68–70: copy the agent's environment and erase the two
libprocess port variables. -/
def erasedPorts (agentEnv : Env) : Env :=
  envErase (envErase agentEnv "LIBPROCESS_PORT") "LIBPROCESS_ADVERTISE_PORT"

/-- Lines 68–78: the erased environment, with `LD_LIBRARY_PATH`
synthesized from `MESOS_NATIVE_LIBRARY` when the former is absent and
the latter present. -/
def composeBase (agentEnv : Env) : Env :=
  if !envContainsKey (erasedPorts agentEnv) "LD_LIBRARY_PATH" &&
      envContainsKey (erasedPorts agentEnv) "MESOS_NATIVE_LIBRARY" then
    envSet (erasedPorts agentEnv) "LD_LIBRARY_PATH"
      (pathDirname (envGetD (erasedPorts agentEnv) "MESOS_NATIVE_LIBRARY" ""))
  else
    erasedPorts agentEnv

/-- Lines 68–84: the full environment handed to the sink subprocesses,
with `LIBPROCESS_NUM_WORKER_THREADS` set to the stringified flag value. -/
def composeEnvironment (agentEnv : Env) (numWorkerThreads : Nat) : Env :=
  envSet (composeBase agentEnv) "LIBPROCESS_NUM_WORKER_THREADS"
    (toString numWorkerThreads)

/-! ### Label building (lines 90–109) -/

/-- Lines 90–109: the caller's labels (empty when `has_labels()` is
false) followed by the three identity labels, in program order.
`frameworkId` is `executorInfo.framework_id().value()`, read after the
`CHECK(executorInfo.has_framework_id())`. -/
def buildLabels (executorInfo : ExecutorInfo) (frameworkId : String)
    (sandboxDirectory : String) : List Label :=
  let base := executorInfo.labels.getD []
  base ++
    [⟨"FRAMEWORK_ID", frameworkId⟩,
     ⟨"EXECUTOR_ID", executorInfo.executor_id⟩,
     ⟨"CONTAINER_ID", pathBasename sandboxDirectory⟩]

/-! ### OS oracle, events and results -/

/-- Outcomes of the OS calls `prepare` makes, in program order: `pipe1`,
`cloexec1`, `spawn1` for the stdout pipeline, then `pipe2`, `cloexec2`,
`spawn2` for the stderr pipeline.  A `pipe` success yields the
(read, write) descriptor pair; a `spawn` success yields the child pid.
`cloexec` outcomes are `none` on success, `some msg` on error.  Later
fields are irrelevant when an earlier step fails (the call never
happens). -/
structure OS where
  pipe1 : Except String (Nat × Nat)
  cloexec1 : Option String
  spawn1 : Except String Nat
  pipe2 : Except String (Nat × Nat)
  cloexec2 : Option String
  spawn2 : Except String Nat

/-- An OS oracle is valid when every pipe yields two distinct
descriptors, the second pipe does not yield a descriptor that is still
open (the first pipe's retained write end), and the two spawned children
have distinct pids.  (The second pipe MAY reuse the number of the first
pipe's read end: that descriptor is closed before the second `::pipe`
call.) -/
def osValid (os : OS) : Bool :=
  (match os.pipe1 with
   | .ok (r, w) => r != w
   | .error _ => true) &&
  (match os.pipe1, os.pipe2 with
   | .ok (_, w), .ok (r2, w2) => r2 != w2 && r2 != w && w2 != w
   | _, _ => true) &&
  (match os.spawn1, os.spawn2 with
   | .ok p, .ok q => p != q
   | _, _ => true)

/-- Steps of `prepare` in the order they are attempted, plus the
`os::killtree` rollback of the stdout sink. -/
inductive Ev where
  | pipeOut
  | cloexecOut
  | spawnOut
  | pipeErr
  | cloexecErr
  | spawnErr
  | killOut
deriving DecidableEq

/-- A live sink subprocess: its pid and the pipe read end it took
ownership of as its standard input. -/
structure Sink where
  pid : Nat
  stdin : Nat
deriving DecidableEq

/-- The value `prepare` produces: a fatal `CHECK` abort, a `Failure`
message, or a `SubprocessInfo` carrying the two write ends. -/
inductive Outcome where
  | fatal (msg : String)
  | failure (msg : String)
  | success (outWrite errWrite : Nat)
deriving DecidableEq

/-- Whether an outcome is a returned `Failure`. -/
def Outcome.isFailure : Outcome → Bool
  | .failure _ => true
  | _ => false

/-- The observable result of one `prepare` call: its outcome together
with resource bookkeeping at the moment it returns. -/
structure PrepareResult where
  outcome : Outcome
  /-- Descriptors created by this call that are still open in the
  calling process when `prepare` returns (owned by the caller). -/
  openFds : List Nat
  /-- Descriptors created by this call that were closed again before
  return — by explicit `os::close`, or by the `subprocess` machinery
  closing an `IO::OWNED` read end it was handed. -/
  closedFds : List Nat
  /-- Sink subprocesses spawned by this call and still alive at return. -/
  sinks : List Sink
  /-- Pids of subprocesses killed via `os::killtree(pid, SIGKILL)`. -/
  killed : List Nat
  /-- The steps attempted, in order. -/
  trace : List Ev
  /-- The environment passed to the `subprocess` calls, when one was
  reached. -/
  sinkEnv : Option Env
  /-- The serialized labels (`loggerFlags.labels`) passed to the
  `subprocess` calls, when one was reached. -/
  sinkLabels : Option String

/-- `JournaldContainerLoggerProcess::prepare` (lines 59–205), with the
OS calls resolved by the oracle `os`.  Each return site records the
descriptor/subprocess state the code leaves behind there:

* line 122 (first `::pipe` failed): nothing was allocated;
* lines 133–137 (first `cloexec` failed): both ends of the first pipe
  are closed before returning;
* lines 152–155 (first spawn failed): `subprocess` consumed and closed
  the `IO::OWNED` read end, the code closes the write end;
* lines 159–163 (second `::pipe` failed): the first write end is closed
  and the stdout sink's tree is killed;
* lines 172–178 (second `cloexec` failed): the first write end and both
  ends of the second pipe are closed, the stdout sink's tree is killed;
* lines 193–198 (second spawn failed): `subprocess` consumed the second
  read end, the code closes both write ends and kills the stdout sink;
* lines 200–204 (success): the two write ends are returned to the
  caller; the parent's copies of the read ends were consumed by the two
  spawns, whose children hold them as standard input. -/
def prepare (flags : Flags) (agentEnv : Env) (executorInfo : ExecutorInfo)
    (sandboxDirectory : String) (os : OS) : PrepareResult :=
  -- Lines 68–78.
  let environment := composeBase agentEnv
  -- Line 82: `CHECK_GT(flags.libprocess_num_worker_threads, 0u)`.
  if flags.libprocess_num_worker_threads = 0 then
    { outcome := .fatal "CHECK_GT(flags.libprocess_num_worker_threads, 0u)"
      openFds := [], closedFds := [], sinks := [], killed := [], trace := []
      sinkEnv := none, sinkLabels := none }
  else
    -- Lines 83–84.
    let environment := envSet environment "LIBPROCESS_NUM_WORKER_THREADS"
      (toString flags.libprocess_num_worker_threads)
    -- Line 96: `CHECK(executorInfo.has_framework_id())`.
    match executorInfo.framework_id with
    | none =>
      { outcome := .fatal "CHECK(executorInfo.has_framework_id())"
        openFds := [], closedFds := [], sinks := [], killed := [], trace := []
        sinkEnv := none, sinkLabels := none }
    | some frameworkId =>
      -- Lines 90–112.
      let labels := buildLabels executorInfo frameworkId sandboxDirectory
      let loggerLabels := labelsJson labels
      -- Lines 120–123: first `::pipe`.
      match os.pipe1 with
      | .error e =>
        { outcome := .failure ("Failed to create pipe: " ++ e)
          openFds := [], closedFds := [], sinks := [], killed := []
          trace := [.pipeOut], sinkEnv := none, sinkLabels := none }
      | .ok (outRead, outWrite) =>
        -- Lines 132–137: `os::cloexec` on the write end.
        match os.cloexec1 with
        | some e =>
          { outcome := .failure ("Failed to cloexec: " ++ e)
            openFds := [], closedFds := [outRead, outWrite]
            sinks := [], killed := [], trace := [.pipeOut, .cloexecOut]
            sinkEnv := none, sinkLabels := none }
        | none =>
          -- Lines 140–155: spawn the stdout sink.
          match os.spawn1 with
          | .error e =>
            { outcome := .failure ("Failed to create logger process: " ++ e)
              openFds := [], closedFds := [outRead, outWrite]
              sinks := [], killed := []
              trace := [.pipeOut, .cloexecOut, .spawnOut]
              sinkEnv := some environment, sinkLabels := some loggerLabels }
          | .ok outPid =>
            -- Lines 159–163: second `::pipe`.
            match os.pipe2 with
            | .error e =>
              { outcome := .failure ("Failed to create pipe: " ++ e)
                openFds := [], closedFds := [outRead, outWrite]
                sinks := [], killed := [outPid]
                trace := [.pipeOut, .cloexecOut, .spawnOut, .pipeErr,
                  .killOut]
                sinkEnv := some environment, sinkLabels := some loggerLabels }
            | .ok (errRead, errWrite) =>
              -- Lines 171–178: `os::cloexec` on the write end.
              match os.cloexec2 with
              | some e =>
                { outcome := .failure ("Failed to cloexec: " ++ e)
                  openFds := []
                  closedFds := [outRead, outWrite, errRead, errWrite]
                  sinks := [], killed := [outPid]
                  trace := [.pipeOut, .cloexecOut, .spawnOut, .pipeErr,
                    .cloexecErr, .killOut]
                  sinkEnv := some environment
                  sinkLabels := some loggerLabels }
              | none =>
                -- Lines 181–198: spawn the stderr sink.
                match os.spawn2 with
                | .error e =>
                  { outcome :=
                      .failure ("Failed to create logger process: " ++ e)
                    openFds := []
                    closedFds := [outRead, errRead, outWrite, errWrite]
                    sinks := [], killed := [outPid]
                    trace := [.pipeOut, .cloexecOut, .spawnOut, .pipeErr,
                      .cloexecErr, .spawnErr, .killOut]
                    sinkEnv := some environment
                    sinkLabels := some loggerLabels }
                | .ok errPid =>
                  -- Lines 200–204.
                  { outcome := .success outWrite errWrite
                    openFds := [outWrite, errWrite]
                    closedFds := [outRead, errRead]
                    sinks := [⟨outPid, outRead⟩, ⟨errPid, errRead⟩]
                    killed := []
                    trace := [.pipeOut, .cloexecOut, .spawnOut, .pipeErr,
                      .cloexecErr, .spawnErr]
                    sinkEnv := some environment
                    sinkLabels := some loggerLabels }

/-! ### Trace predicates -/

/-- Whether an event belongs to the stdout pipeline. -/
def isOutEv : Ev → Bool
  | .pipeOut | .cloexecOut | .spawnOut => true
  | _ => false

/-- Whether an event belongs to the stderr pipeline or its rollback. -/
def isErrEv : Ev → Bool
  | .pipeErr | .cloexecErr | .spawnErr | .killOut => true
  | _ => false

/-- Whether no stdout-pipeline event occurs after a stderr-pipeline
event in a trace. -/
def outBeforeErr : List Ev → Bool
  | [] => true
  | e :: rest =>
    if isErrEv e then rest.all (fun x => !isOutEv x) else outBeforeErr rest

/-! ### Concrete inputs used by witnesses and counterexamples -/

/-- Flags with a positive worker-thread count (the spec's scenario value). -/
def wFlags : Flags := ⟨8, "/opt/mesos/modules"⟩

/-- Flags with worker-thread count zero. -/
def zFlags : Flags := ⟨0, "/opt/mesos/modules"⟩

/-- The spec's concrete scenario executor info: framework id `fw-1`,
executor id `ex-1`, no caller labels. -/
def wExecutorInfo : ExecutorInfo := ⟨some "fw-1", "ex-1", none⟩

/-- An executor info lacking a framework id. -/
def nExecutorInfo : ExecutorInfo := ⟨none, "ex-1", none⟩

/-- The spec's concrete sandbox path. -/
def wSandbox : String := "/var/sandboxes/abcd1234"

/-- An oracle on which every OS call succeeds. -/
def okOS : OS := ⟨.ok (3, 4), none, .ok 101, .ok (5, 6), none, .ok 102⟩

/-- An oracle on which the second pipe allocation fails. -/
def errPipeOS : OS := ⟨.ok (3, 4), none, .ok 101, .error "EMFILE", none, .ok 102⟩

/-- An oracle on which the first pipe allocation fails. -/
def outPipeFailOS : OS :=
  ⟨.error "EMFILE", none, .ok 101, .ok (5, 6), none, .ok 102⟩

/-- An agent environment carrying both libprocess port variables, a
worker-thread-count entry that differs from the configured flag value,
and an unrelated variable. -/
def sampleEnv : Env :=
  [("LIBPROCESS_PORT", "5050"), ("LIBPROCESS_ADVERTISE_PORT", "5051"),
   ("LIBPROCESS_NUM_WORKER_THREADS", "5"), ("FOO", "bar")]

/-! ### Helper lemmas about environment operations -/

theorem envContainsKey_cons (kv : String × String) (rest : Env)
    (k : String) :
    envContainsKey (kv :: rest) k = (kv.1 == k || envContainsKey rest k) := by
  simp [envContainsKey]

theorem envErase_cons (kv : String × String) (rest : Env) (k0 : String) :
    envErase (kv :: rest) k0 =
      if kv.1 == k0 then envErase rest k0 else kv :: envErase rest k0 := by
  cases h : kv.1 == k0
  · rw [if_neg Bool.false_ne_true]
    simp only [envErase, List.filter_cons]
    rw [if_pos (by simp only [bne, h, Bool.not_false])]
  · rw [if_pos rfl]
    simp only [envErase, List.filter_cons]
    rw [if_neg (ne_true_of_eq_false (by simp only [bne, h, Bool.not_true]))]

theorem envGet_cons (kv : String × String) (rest : Env) (k : String) :
    envGet (kv :: rest) k =
      if kv.1 == k then some kv.2 else envGet rest k := by
  cases h : kv.1 == k
  · rw [if_neg Bool.false_ne_true]
    simp only [envGet]
    rw [@List.find?_cons_of_neg (String × String) (fun kv => kv.1 == k) kv
      rest (ne_true_of_eq_false h)]
  · rw [if_pos rfl]
    simp only [envGet]
    rw [@List.find?_cons_of_pos (String × String) (fun kv => kv.1 == k) kv
      rest h]
    rfl

theorem envContainsKey_iff (env : Env) (k : String) :
    envContainsKey env k = true ↔ ∃ v, (k, v) ∈ env := by
  constructor
  · intro h
    obtain ⟨kv, hm, he⟩ := List.any_eq_true.mp h
    obtain ⟨a, b⟩ := kv
    have ha : a = k := by simpa using he
    exact ⟨b, by simpa [ha] using hm⟩
  · rintro ⟨v, hv⟩
    exact List.any_eq_true.mpr ⟨(k, v), hv, by simp⟩

theorem mem_envErase (env : Env) (k v : String) (k0 : String) (h : k ≠ k0)
    (hm : (k, v) ∈ env) : (k, v) ∈ envErase env k0 := by
  simp only [envErase, List.mem_filter]
  exact ⟨hm, by simp [h]⟩

theorem envContainsKey_envErase_self (env : Env) (k : String) :
    envContainsKey (envErase env k) k = false := by
  rw [Bool.eq_false_iff]
  intro h
  obtain ⟨v, hv⟩ := (envContainsKey_iff _ _).mp h
  simp only [envErase, List.mem_filter] at hv
  simp at hv

theorem envContainsKey_envErase_ne (env : Env) (k k0 : String)
    (h : k ≠ k0) :
    envContainsKey (envErase env k0) k = envContainsKey env k := by
  induction env with
  | nil => rfl
  | cons kv rest ih =>
    rw [envErase_cons, envContainsKey_cons]
    by_cases h1 : kv.1 = k0
    · rw [if_pos (by simp [h1]), ih]
      have hke : (kv.1 == k) = false :=
        beq_eq_false_iff_ne.mpr (by rw [h1]; exact Ne.symm h)
      rw [hke, Bool.false_or]
    · rw [if_neg (by simp [h1]), envContainsKey_cons, ih]

theorem mem_envSet (env : Env) (k v : String) (k0 v0 : String) (h : k ≠ k0)
    (hm : (k, v) ∈ env) : (k, v) ∈ envSet env k0 v0 := by
  simp only [envSet, List.mem_append]
  exact Or.inl (mem_envErase env k v k0 h hm)

theorem envContainsKey_envSet_ne (env : Env) (k k0 v0 : String)
    (h : k ≠ k0) :
    envContainsKey (envSet env k0 v0) k = envContainsKey env k := by
  simp only [envSet, envContainsKey, List.any_append]
  have h1 : (envErase env k0).any (fun kv => kv.1 == k) =
      envContainsKey env k := envContainsKey_envErase_ne env k k0 h
  have h2 : [(k0, v0)].any (fun kv => kv.1 == k) = false := by
    simp [Ne.symm h]
  rw [h1, h2, Bool.or_false]
  rfl

theorem envGet_envErase_ne (env : Env) (k k0 : String) (h : k ≠ k0) :
    envGet (envErase env k0) k = envGet env k := by
  induction env with
  | nil => rfl
  | cons kv rest ih =>
    rw [envErase_cons, envGet_cons]
    by_cases h1 : kv.1 = k0
    · have he : (kv.1 == k) = false :=
        beq_eq_false_iff_ne.mpr (by rw [h1]; exact Ne.symm h)
      rw [if_pos (by simp [h1]), ih, he, if_neg (by simp)]
    · rw [if_neg (by simp [h1]), envGet_cons, ih]

theorem envGet_none_of_not_containsKey (env : Env) (k : String)
    (h : envContainsKey env k = false) : envGet env k = none := by
  induction env with
  | nil => rfl
  | cons kv rest ih =>
    rw [envContainsKey_cons, Bool.or_eq_false_iff] at h
    rw [envGet_cons, h.1, if_neg (by simp)]
    exact ih h.2

theorem envGet_envSet_self (env : Env) (k v : String) :
    envGet (envSet env k v) k = some v := by
  simp only [envSet, envGet, List.find?_append]
  have h1 : (envErase env k).find? (fun kv => kv.1 == k) = none := by
    have h2 := envGet_none_of_not_containsKey (envErase env k) k
      (envContainsKey_envErase_self env k)
    simp only [envGet, Option.map_eq_none'] at h2
    exact h2
  rw [h1, Option.none_or]
  simp [List.find?]

theorem envGet_envSet_ne (env : Env) (k k0 v0 : String) (h : k ≠ k0) :
    envGet (envSet env k0 v0) k = envGet env k := by
  have hgoal : envGet (envErase env k0 ++ [(k0, v0)]) k = envGet env k := by
    have h2 : List.find? (fun kv => kv.1 == k) [(k0, v0)] = none := by
      have hb : (k0 == k) = false := by
        simp only [beq_eq_false_iff_ne, ne_eq]
        exact fun hk => h (hk ▸ rfl)
      simp [List.find?, hb]
    simp only [envGet, List.find?_append, h2, Option.or_none]
    exact envGet_envErase_ne env k k0 h
  exact hgoal

theorem envContainsKey_of_envGet_some (env : Env) (k v : String)
    (h : envGet env k = some v) : envContainsKey env k = true := by
  induction env with
  | nil => simp [envGet, List.find?] at h
  | cons kv rest ih =>
    rw [envGet_cons] at h
    rw [envContainsKey_cons]
    cases hb : kv.1 == k
    · rw [hb] at h
      rw [if_neg Bool.false_ne_true] at h
      rw [Bool.false_or]
      exact ih h
    · rw [Bool.true_or]

/-! ### Facts about the composed environment -/

theorem envContainsKey_erasedPorts (agentEnv : Env) (k : String)
    (h1 : k ≠ "LIBPROCESS_PORT") (h2 : k ≠ "LIBPROCESS_ADVERTISE_PORT") :
    envContainsKey (erasedPorts agentEnv) k = envContainsKey agentEnv k := by
  unfold erasedPorts
  rw [envContainsKey_envErase_ne _ _ _ h2, envContainsKey_envErase_ne _ _ _ h1]

theorem envGet_erasedPorts (agentEnv : Env) (k : String)
    (h1 : k ≠ "LIBPROCESS_PORT") (h2 : k ≠ "LIBPROCESS_ADVERTISE_PORT") :
    envGet (erasedPorts agentEnv) k = envGet agentEnv k := by
  unfold erasedPorts
  rw [envGet_envErase_ne _ _ _ h2, envGet_envErase_ne _ _ _ h1]

theorem envContainsKey_composeBase_port (agentEnv : Env) (k : String)
    (hLD : k ≠ "LD_LIBRARY_PATH")
    (hk : k = "LIBPROCESS_PORT" ∨ k = "LIBPROCESS_ADVERTISE_PORT") :
    envContainsKey (composeBase agentEnv) k = false := by
  have hbase : envContainsKey (erasedPorts agentEnv) k = false := by
    rcases hk with hk | hk <;> subst hk
    · rw [erasedPorts, envContainsKey_envErase_ne _ _ _ (by decide)]
      exact envContainsKey_envErase_self _ _
    · exact envContainsKey_envErase_self _ _
  unfold composeBase
  by_cases hbr : (!envContainsKey (erasedPorts agentEnv) "LD_LIBRARY_PATH" &&
      envContainsKey (erasedPorts agentEnv) "MESOS_NATIVE_LIBRARY") = true
  · rw [if_pos hbr, envContainsKey_envSet_ne _ _ _ _ hLD]
    exact hbase
  · rw [if_neg hbr]
    exact hbase

theorem mem_composeBase (agentEnv : Env) (k v : String)
    (h1 : k ≠ "LIBPROCESS_PORT") (h2 : k ≠ "LIBPROCESS_ADVERTISE_PORT")
    (hm : (k, v) ∈ agentEnv) : (k, v) ∈ composeBase agentEnv := by
  have hmem : (k, v) ∈ erasedPorts agentEnv :=
    mem_envErase _ _ _ _ h2 (mem_envErase _ _ _ _ h1 hm)
  unfold composeBase
  by_cases hbr : (!envContainsKey (erasedPorts agentEnv) "LD_LIBRARY_PATH" &&
      envContainsKey (erasedPorts agentEnv) "MESOS_NATIVE_LIBRARY") = true
  · rw [if_pos hbr]
    have hkLD : k ≠ "LD_LIBRARY_PATH" := by
      intro hk
      subst hk
      rw [Bool.and_eq_true, Bool.not_eq_true'] at hbr
      have hc := (envContainsKey_iff _ _).mpr ⟨v, hmem⟩
      rw [hc] at hbr
      exact absurd hbr.1 (by decide)
    exact mem_envSet _ _ _ _ _ hkLD hmem
  · rw [if_neg hbr]
    exact hmem

/-! ### Claim C4 -/

/-- Claim C4 is false as stated at this input: `sampleEnv` contains the
entry `LIBPROCESS_NUM_WORKER_THREADS = 5`, whose key is neither of the
two port variables, yet the environment composed for the sink
subprocesses (which `prepare` passes to both spawns) does not carry that
entry over — lines 83–84 overwrite it with the flag value `8`. -/
theorem claim_C4_counterexample :
    (prepare wFlags sampleEnv wExecutorInfo wSandbox okOS).sinkEnv =
      some (composeEnvironment sampleEnv 8) ∧
    ("LIBPROCESS_NUM_WORKER_THREADS", "5") ∈ sampleEnv ∧
    "LIBPROCESS_NUM_WORKER_THREADS" ≠ "LIBPROCESS_PORT" ∧
    "LIBPROCESS_NUM_WORKER_THREADS" ≠ "LIBPROCESS_ADVERTISE_PORT" ∧
    ("LIBPROCESS_NUM_WORKER_THREADS", "5") ∉ composeEnvironment sampleEnv 8 := by
  refine ⟨rfl, by decide, by decide, by decide, by decide⟩

/-- Claim C4 (amended): for every input environment the composed
environment contains neither `LIBPROCESS_PORT` nor
`LIBPROCESS_ADVERTISE_PORT`; every input entry whose key is none of the
two port variables and not `LIBPROCESS_NUM_WORKER_THREADS` is carried
over unchanged; and `LIBPROCESS_NUM_WORKER_THREADS` is set to the
stringified worker-thread count. -/
theorem claim_C4 (agentEnv : Env) (n : Nat) :
    envContainsKey (composeEnvironment agentEnv n) "LIBPROCESS_PORT" = false ∧
    envContainsKey (composeEnvironment agentEnv n)
      "LIBPROCESS_ADVERTISE_PORT" = false ∧
    envGet (composeEnvironment agentEnv n) "LIBPROCESS_NUM_WORKER_THREADS" =
      some (toString n) ∧
    (∀ k v, (k, v) ∈ agentEnv → k ≠ "LIBPROCESS_PORT" →
      k ≠ "LIBPROCESS_ADVERTISE_PORT" → k ≠ "LIBPROCESS_NUM_WORKER_THREADS" →
      (k, v) ∈ composeEnvironment agentEnv n) := by
  refine ⟨?_, ?_, ?_, ?_⟩
  · rw [composeEnvironment, envContainsKey_envSet_ne _ _ _ _ (by decide)]
    exact envContainsKey_composeBase_port agentEnv _ (by decide) (Or.inl rfl)
  · rw [composeEnvironment, envContainsKey_envSet_ne _ _ _ _ (by decide)]
    exact envContainsKey_composeBase_port agentEnv _ (by decide) (Or.inr rfl)
  · exact envGet_envSet_self _ _ _
  · intro k v hm h1 h2 h3
    exact mem_envSet _ _ _ _ _ h3 (mem_composeBase agentEnv k v h1 h2 hm)

/-- Witness for the amended claim C4, instantiated at `sampleEnv`: the
ports are gone and the unrelated entry `FOO = bar` is carried over. -/
theorem claim_C4_witness :
    envContainsKey (composeEnvironment sampleEnv 8) "LIBPROCESS_PORT" =
      false ∧
    ("FOO", "bar") ∈ composeEnvironment sampleEnv 8 :=
  ⟨(claim_C4 sampleEnv 8).1,
   (claim_C4 sampleEnv 8).2.2.2 "FOO" "bar" (by decide) (by decide)
     (by decide) (by decide)⟩

/-! ### Claim C5 -/

/-- Claim C5: if the input environment lacks `LD_LIBRARY_PATH` and holds
`MESOS_NATIVE_LIBRARY = loc`, the composed environment's
`LD_LIBRARY_PATH` is the directory component of `loc`; if the input
environment already holds `LD_LIBRARY_PATH`, it is left unchanged. -/
theorem claim_C5 (agentEnv : Env) (n : Nat) :
    (envContainsKey agentEnv "LD_LIBRARY_PATH" = false →
      ∀ loc, envGet agentEnv "MESOS_NATIVE_LIBRARY" = some loc →
        envGet (composeEnvironment agentEnv n) "LD_LIBRARY_PATH" =
          some (pathDirname loc)) ∧
    (envContainsKey agentEnv "LD_LIBRARY_PATH" = true →
      envGet (composeEnvironment agentEnv n) "LD_LIBRARY_PATH" =
        envGet agentEnv "LD_LIBRARY_PATH") := by
  constructor
  · intro hLD loc hNAT
    have hLD2 : envContainsKey (erasedPorts agentEnv) "LD_LIBRARY_PATH" =
        false := by
      rw [envContainsKey_erasedPorts _ _ (by decide) (by decide)]
      exact hLD
    have hNAT2 : envGet (erasedPorts agentEnv) "MESOS_NATIVE_LIBRARY" =
        some loc := by
      rw [envGet_erasedPorts _ _ (by decide) (by decide)]
      exact hNAT
    have hNAT3 : envContainsKey (erasedPorts agentEnv)
        "MESOS_NATIVE_LIBRARY" = true :=
      envContainsKey_of_envGet_some _ _ _ hNAT2
    rw [composeEnvironment, envGet_envSet_ne _ _ _ _ (by decide),
      composeBase, if_pos (by rw [hLD2, hNAT3]; rfl)]
    rw [envGetD, hNAT2]
    exact envGet_envSet_self _ _ _
  · intro hLD
    have hLD2 : envContainsKey (erasedPorts agentEnv) "LD_LIBRARY_PATH" =
        true := by
      rw [envContainsKey_erasedPorts _ _ (by decide) (by decide)]
      exact hLD
    rw [composeEnvironment, envGet_envSet_ne _ _ _ _ (by decide),
      composeBase, if_neg (by rw [hLD2]; simp)]
    exact envGet_erasedPorts _ _ (by decide) (by decide)

/-- Witness for claim C5 at a concrete environment: with no
`LD_LIBRARY_PATH` and `MESOS_NATIVE_LIBRARY = /usr/lib/libmesos.so`, the
composed search path is `/usr/lib`. -/
theorem claim_C5_witness :
    envGet (composeEnvironment
        [("MESOS_NATIVE_LIBRARY", "/usr/lib/libmesos.so")] 8)
      "LD_LIBRARY_PATH" = some (pathDirname "/usr/lib/libmesos.so") :=
  (claim_C5 [("MESOS_NATIVE_LIBRARY", "/usr/lib/libmesos.so")] 8).1
    (by decide) "/usr/lib/libmesos.so" (by decide)

/-! ### Claim C7 -/

/-- Claim C7: when the configured worker-thread count is positive, the
environment composed for the sink subprocesses maps
`LIBPROCESS_NUM_WORKER_THREADS` to the stringified count and the
`CHECK_GT` fatal-assertion branch is unreachable for every oracle and
request; when the count is zero, `prepare` aborts via the fatal
assertion, returning no typed result and touching no OS resource. -/
theorem claim_C7 (flags : Flags) (agentEnv : Env)
    (executorInfo : ExecutorInfo) (sandboxDirectory : String) (os : OS) :
    (flags.libprocess_num_worker_threads ≠ 0 →
      envGet (composeEnvironment agentEnv flags.libprocess_num_worker_threads)
          "LIBPROCESS_NUM_WORKER_THREADS" =
        some (toString flags.libprocess_num_worker_threads) ∧
      (prepare flags agentEnv executorInfo sandboxDirectory os).outcome ≠
        .fatal "CHECK_GT(flags.libprocess_num_worker_threads, 0u)") ∧
    (flags.libprocess_num_worker_threads = 0 →
      (prepare flags agentEnv executorInfo sandboxDirectory os).outcome =
        .fatal "CHECK_GT(flags.libprocess_num_worker_threads, 0u)" ∧
      (prepare flags agentEnv executorInfo sandboxDirectory os).openFds =
        [] ∧
      (prepare flags agentEnv executorInfo sandboxDirectory os).sinks = [] ∧
      (prepare flags agentEnv executorInfo sandboxDirectory os).trace = []) := by
  constructor
  · intro hn
    refine ⟨envGet_envSet_self _ _ _, ?_⟩
    obtain ⟨fw, ex, labs⟩ := executorInfo
    obtain ⟨p1, c1, s1, p2, c2, s2⟩ := os
    rcases fw with _ | f <;>
      rcases p1 with e1 | ⟨r1, w1⟩ <;>
      rcases c1 with _ | e2 <;>
      rcases s1 with e3 | pid1 <;>
      rcases p2 with e4 | ⟨r2, w2⟩ <;>
      rcases c2 with _ | e5 <;>
      rcases s2 with e6 | pid2 <;>
      simp [prepare, hn]
  · intro h0
    refine ⟨?_, ?_, ?_, ?_⟩ <;> simp [prepare, h0]

/-- Witness for claim C7: with worker-thread count 8 the fatal branch is
not taken; with count 0 the call aborts via the fatal assertion. -/
theorem claim_C7_witness :
    ((prepare wFlags sampleEnv wExecutorInfo wSandbox okOS).outcome ≠
      .fatal "CHECK_GT(flags.libprocess_num_worker_threads, 0u)") ∧
    ((prepare zFlags sampleEnv wExecutorInfo wSandbox okOS).outcome =
      .fatal "CHECK_GT(flags.libprocess_num_worker_threads, 0u)") :=
  ⟨((claim_C7 wFlags sampleEnv wExecutorInfo wSandbox okOS).1
      (by decide)).2,
   ((claim_C7 zFlags sampleEnv wExecutorInfo wSandbox okOS).2 rfl).1⟩

/-! ### Claim C10 -/

/-- Claim C10: with a positive worker-thread count, a request whose
executor info lacks a framework id makes `prepare` abort via the
`CHECK` fatal assertion at line 96 — before any pipe, `cloexec` or spawn
is attempted, so no OS resource is allocated and no typed result is
returned. -/
theorem claim_C10 (flags : Flags) (agentEnv : Env)
    (executorInfo : ExecutorInfo) (sandboxDirectory : String) (os : OS)
    (hn : flags.libprocess_num_worker_threads ≠ 0)
    (hfw : executorInfo.framework_id = none) :
    (prepare flags agentEnv executorInfo sandboxDirectory os).outcome =
      .fatal "CHECK(executorInfo.has_framework_id())" ∧
    (prepare flags agentEnv executorInfo sandboxDirectory os).openFds = [] ∧
    (prepare flags agentEnv executorInfo sandboxDirectory os).closedFds =
      [] ∧
    (prepare flags agentEnv executorInfo sandboxDirectory os).sinks = [] ∧
    (prepare flags agentEnv executorInfo sandboxDirectory os).killed = [] ∧
    (prepare flags agentEnv executorInfo sandboxDirectory os).trace = [] := by
  refine ⟨?_, ?_, ?_, ?_, ?_, ?_⟩ <;> simp [prepare, hn, hfw]

/-- Witness for claim C10 at a concrete framework-id-less request. -/
theorem claim_C10_witness :
    (prepare wFlags sampleEnv nExecutorInfo wSandbox okOS).outcome =
      .fatal "CHECK(executorInfo.has_framework_id())" ∧
    (prepare wFlags sampleEnv nExecutorInfo wSandbox okOS).openFds = [] ∧
    (prepare wFlags sampleEnv nExecutorInfo wSandbox okOS).closedFds = [] ∧
    (prepare wFlags sampleEnv nExecutorInfo wSandbox okOS).sinks = [] ∧
    (prepare wFlags sampleEnv nExecutorInfo wSandbox okOS).killed = [] ∧
    (prepare wFlags sampleEnv nExecutorInfo wSandbox okOS).trace = [] :=
  claim_C10 wFlags sampleEnv nExecutorInfo wSandbox okOS (by decide) rfl

/-! ### Claim C1 -/

/-- Claim C1: whenever the stdout pipeline has been fully set up and the
stderr pipeline then fails at any step (err pipe allocation, err
cloexec, or err spawn), `prepare` returns a failure and, before
returning, closes every descriptor the call still owns — the caller is
left owning none — and kills the process tree of the already-spawned
stdout sink via `os::killtree`, so no sink subprocess from the call
remains alive. -/
theorem claim_C1 (flags : Flags) (agentEnv : Env)
    (executorInfo : ExecutorInfo) (sandboxDirectory : String) (os : OS)
    (hn : flags.libprocess_num_worker_threads ≠ 0)
    (frameworkId : String)
    (hfw : executorInfo.framework_id = some frameworkId)
    (outRead outWrite outPid : Nat)
    (hp1 : os.pipe1 = .ok (outRead, outWrite))
    (hc1 : os.cloexec1 = none)
    (hs1 : os.spawn1 = .ok outPid)
    (herr : (∃ e, os.pipe2 = .error e) ∨ (∃ e, os.cloexec2 = some e) ∨
      (∃ e, os.spawn2 = .error e)) :
    (∃ msg, (prepare flags agentEnv executorInfo sandboxDirectory
        os).outcome = .failure msg) ∧
    (prepare flags agentEnv executorInfo sandboxDirectory os).openFds = [] ∧
    (prepare flags agentEnv executorInfo sandboxDirectory os).sinks = [] ∧
    (prepare flags agentEnv executorInfo sandboxDirectory os).killed =
      [outPid] := by
  obtain ⟨fw, ex, labs⟩ := executorInfo
  obtain ⟨p1, c1, s1, p2, c2, s2⟩ := os
  subst hp1
  subst hc1
  subst hs1
  subst hfw
  rcases p2 with e4 | ⟨r2, w2⟩ <;> rcases c2 with _ | e5 <;>
    rcases s2 with e6 | pid2 <;>
    first
      | (rcases herr with ⟨e, he⟩ | ⟨e, he⟩ | ⟨e, he⟩ <;>
         first
           | exact Except.noConfusion he
           | exact Option.noConfusion he)
      | simp [prepare, hn]

/-- Witness for claim C1: a concrete run on which the second pipe
allocation fails leaves no open descriptor, no live sink, and the
stdout sink killed. -/
theorem claim_C1_witness :
    (∃ msg, (prepare wFlags sampleEnv wExecutorInfo wSandbox
        errPipeOS).outcome = .failure msg) ∧
    (prepare wFlags sampleEnv wExecutorInfo wSandbox errPipeOS).openFds =
      [] ∧
    (prepare wFlags sampleEnv wExecutorInfo wSandbox errPipeOS).sinks = [] ∧
    (prepare wFlags sampleEnv wExecutorInfo wSandbox errPipeOS).killed =
      [101] :=
  claim_C1 wFlags sampleEnv wExecutorInfo wSandbox errPipeOS (by decide)
    "fw-1" rfl 3 4 101 rfl rfl rfl (Or.inl ⟨"EMFILE", rfl⟩)

/-! ### Claim C2 -/

/-- Claim C2: on a valid request (framework id present, positive
worker-thread count) with every OS step succeeding under a valid
oracle, `prepare` returns exactly the two distinct pipe write ends,
which are the only descriptors the caller comes to own, and exactly two
sink subprocesses are alive, each holding the corresponding pipe's read
end as its standard input. -/
theorem claim_C2 (flags : Flags) (agentEnv : Env)
    (executorInfo : ExecutorInfo) (sandboxDirectory : String) (os : OS)
    (hn : flags.libprocess_num_worker_threads ≠ 0)
    (frameworkId : String)
    (hfw : executorInfo.framework_id = some frameworkId)
    (outRead outWrite outPid errRead errWrite errPid : Nat)
    (hp1 : os.pipe1 = .ok (outRead, outWrite))
    (hc1 : os.cloexec1 = none)
    (hs1 : os.spawn1 = .ok outPid)
    (hp2 : os.pipe2 = .ok (errRead, errWrite))
    (hc2 : os.cloexec2 = none)
    (hs2 : os.spawn2 = .ok errPid)
    (hv : osValid os = true) :
    (prepare flags agentEnv executorInfo sandboxDirectory os).outcome =
      .success outWrite errWrite ∧
    outWrite ≠ errWrite ∧
    (prepare flags agentEnv executorInfo sandboxDirectory os).openFds =
      [outWrite, errWrite] ∧
    (prepare flags agentEnv executorInfo sandboxDirectory os).sinks =
      [⟨outPid, outRead⟩, ⟨errPid, errRead⟩] ∧
    outPid ≠ errPid := by
  obtain ⟨fw, ex, labs⟩ := executorInfo
  obtain ⟨p1, c1, s1, p2, c2, s2⟩ := os
  subst hp1
  subst hc1
  subst hs1
  subst hp2
  subst hc2
  subst hs2
  subst hfw
  simp only [osValid, Bool.and_eq_true, bne_iff_ne, ne_eq] at hv
  refine ⟨by simp [prepare, hn], ?_, by simp [prepare, hn],
    by simp [prepare, hn], hv.2⟩
  exact fun h => hv.1.2.2 h.symm

/-- Witness for claim C2 on the all-success oracle: the caller receives
the two write ends 4 and 6, and sinks with pids 101 and 102 hold read
ends 3 and 5 as their standard inputs. -/
theorem claim_C2_witness :
    (prepare wFlags sampleEnv wExecutorInfo wSandbox okOS).outcome =
      .success 4 6 ∧
    (4 : Nat) ≠ 6 ∧
    (prepare wFlags sampleEnv wExecutorInfo wSandbox okOS).openFds =
      [4, 6] ∧
    (prepare wFlags sampleEnv wExecutorInfo wSandbox okOS).sinks =
      [⟨101, 3⟩, ⟨102, 5⟩] ∧
    (101 : Nat) ≠ 102 :=
  claim_C2 wFlags sampleEnv wExecutorInfo wSandbox okOS (by decide) "fw-1"
    rfl 3 4 101 5 6 102 rfl rfl rfl rfl rfl rfl (by decide)

/-! ### Claim C3 -/

/-- Claim C3: the stdout pipeline follows the program order with
per-step rollback.  A failed pipe allocation returns the fixed
pipe-failure message (the code's realization of the spec's
`ResourceExhausted` class) having allocated nothing; a failed cloexec
closes both pipe ends and returns the cloexec-failure message
(`SetupFailed`); a failed spawn leaves the owned read end consumed by
the subprocess machinery, closes the write end, and returns the
spawn-failure message (`SpawnFailed`); when the whole call succeeds the
out pipeline retains only its write end for the caller. -/
theorem claim_C3 (flags : Flags) (agentEnv : Env)
    (executorInfo : ExecutorInfo) (sandboxDirectory : String) (os : OS)
    (hn : flags.libprocess_num_worker_threads ≠ 0)
    (frameworkId : String)
    (hfw : executorInfo.framework_id = some frameworkId) :
    (∀ e, os.pipe1 = .error e →
      (prepare flags agentEnv executorInfo sandboxDirectory os).outcome =
        .failure ("Failed to create pipe: " ++ e) ∧
      (prepare flags agentEnv executorInfo sandboxDirectory os).openFds =
        [] ∧
      (prepare flags agentEnv executorInfo sandboxDirectory os).closedFds =
        []) ∧
    (∀ outRead outWrite e, os.pipe1 = .ok (outRead, outWrite) →
      os.cloexec1 = some e →
      (prepare flags agentEnv executorInfo sandboxDirectory os).outcome =
        .failure ("Failed to cloexec: " ++ e) ∧
      (prepare flags agentEnv executorInfo sandboxDirectory os).openFds =
        [] ∧
      (prepare flags agentEnv executorInfo sandboxDirectory os).closedFds =
        [outRead, outWrite]) ∧
    (∀ outRead outWrite e, os.pipe1 = .ok (outRead, outWrite) →
      os.cloexec1 = none → os.spawn1 = .error e →
      (prepare flags agentEnv executorInfo sandboxDirectory os).outcome =
        .failure ("Failed to create logger process: " ++ e) ∧
      (prepare flags agentEnv executorInfo sandboxDirectory os).openFds =
        [] ∧
      (prepare flags agentEnv executorInfo sandboxDirectory os).closedFds =
        [outRead, outWrite]) ∧
    (∀ outRead outWrite outPid errRead errWrite errPid,
      os.pipe1 = .ok (outRead, outWrite) → os.cloexec1 = none →
      os.spawn1 = .ok outPid → os.pipe2 = .ok (errRead, errWrite) →
      os.cloexec2 = none → os.spawn2 = .ok errPid →
      (prepare flags agentEnv executorInfo sandboxDirectory os).openFds =
        [outWrite, errWrite] ∧
      (prepare flags agentEnv executorInfo sandboxDirectory os).closedFds =
        [outRead, errRead]) := by
  refine ⟨?_, ?_, ?_, ?_⟩
  · intro e he
    refine ⟨?_, ?_, ?_⟩ <;> simp [prepare, hn, hfw, he]
  · intro outRead outWrite e hp hc
    refine ⟨?_, ?_, ?_⟩ <;> simp [prepare, hn, hfw, hp, hc]
  · intro outRead outWrite e hp hc hs
    refine ⟨?_, ?_, ?_⟩ <;> simp [prepare, hn, hfw, hp, hc, hs]
  · intro outRead outWrite outPid errRead errWrite errPid hp hc hs hp2
      hc2 hs2
    refine ⟨?_, ?_⟩ <;> simp [prepare, hn, hfw, hp, hc, hs, hp2, hc2, hs2]

/-- Witness for claim C3: the first pipe allocation fails on
`outPipeFailOS`; `prepare` fails with the pipe message having opened and
closed nothing. -/
theorem claim_C3_witness :
    (prepare wFlags sampleEnv wExecutorInfo wSandbox
        outPipeFailOS).outcome =
      .failure ("Failed to create pipe: " ++ "EMFILE") ∧
    (prepare wFlags sampleEnv wExecutorInfo wSandbox
        outPipeFailOS).openFds = [] ∧
    (prepare wFlags sampleEnv wExecutorInfo wSandbox
        outPipeFailOS).closedFds = [] :=
  (claim_C3 wFlags sampleEnv wExecutorInfo wSandbox outPipeFailOS
    (by decide) "fw-1" rfl).1 "EMFILE" rfl

/-! ### Claim C6 -/

/-- Claim C6: whenever a spawn is reached, the serialized label set
handed to the sink subprocesses is exactly the caller's labels from the
executor info (in order, empty if absent) followed by the three identity
labels `FRAMEWORK_ID`, `EXECUTOR_ID`, `CONTAINER_ID` in that fixed
order, the container id being the final path component of the sandbox
directory. -/
theorem claim_C6 (flags : Flags) (agentEnv : Env)
    (executorInfo : ExecutorInfo) (sandboxDirectory : String) (os : OS)
    (hn : flags.libprocess_num_worker_threads ≠ 0)
    (frameworkId : String)
    (hfw : executorInfo.framework_id = some frameworkId)
    (outRead outWrite : Nat)
    (hp1 : os.pipe1 = .ok (outRead, outWrite))
    (hc1 : os.cloexec1 = none) :
    (prepare flags agentEnv executorInfo sandboxDirectory os).sinkLabels =
      some (labelsJson (executorInfo.labels.getD [] ++
        [⟨"FRAMEWORK_ID", frameworkId⟩,
         ⟨"EXECUTOR_ID", executorInfo.executor_id⟩,
         ⟨"CONTAINER_ID", pathBasename sandboxDirectory⟩])) := by
  obtain ⟨fw, ex, labs⟩ := executorInfo
  obtain ⟨p1, c1, s1, p2, c2, s2⟩ := os
  subst hp1
  subst hc1
  subst hfw
  rcases s1 with e3 | pid1 <;> rcases p2 with e4 | ⟨r2, w2⟩ <;>
    rcases c2 with _ | e5 <;> rcases s2 with e6 | pid2 <;>
    simp [prepare, hn, buildLabels]

/-- Witness for claim C6 on the spec's concrete scenario: framework id
`fw-1`, executor id `ex-1`, sandbox `/var/sandboxes/abcd1234`, no
caller labels — the container id label value is `abcd1234`. -/
theorem claim_C6_witness :
    (prepare wFlags sampleEnv wExecutorInfo wSandbox okOS).sinkLabels =
      some (labelsJson [⟨"FRAMEWORK_ID", "fw-1"⟩, ⟨"EXECUTOR_ID", "ex-1"⟩,
        ⟨"CONTAINER_ID", "abcd1234"⟩]) := by
  rw [claim_C6 wFlags sampleEnv wExecutorInfo wSandbox okOS (by decide)
    "fw-1" rfl 3 4 rfl rfl]
  rfl

/-! ### Claim C8 -/

/-- Claim C8: in every `prepare` call the stdout pipeline fully
completes (or fails) before any stderr-pipeline step begins — whenever a
stderr step was attempted, the first three trace events are exactly the
three stdout steps, and no stdout event ever follows a stderr event;
when a failure is returned after the stderr pipeline began, the stdout
sink was killed before returning and no sink remains alive; when a
failure is returned without the stderr pipeline having begun (a stdout
pipeline failure), nothing is ever killed, since no subprocess exists
yet. -/
theorem claim_C8 (flags : Flags) (agentEnv : Env)
    (executorInfo : ExecutorInfo) (sandboxDirectory : String) (os : OS) :
    outBeforeErr
      (prepare flags agentEnv executorInfo sandboxDirectory os).trace =
      true ∧
    (Ev.pipeErr ∈
        (prepare flags agentEnv executorInfo sandboxDirectory os).trace →
      (prepare flags agentEnv executorInfo sandboxDirectory
        os).trace.take 3 = [Ev.pipeOut, Ev.cloexecOut, Ev.spawnOut]) ∧
    ((prepare flags agentEnv executorInfo sandboxDirectory
        os).outcome.isFailure = true →
      Ev.pipeErr ∈
        (prepare flags agentEnv executorInfo sandboxDirectory os).trace →
      Ev.killOut ∈
        (prepare flags agentEnv executorInfo sandboxDirectory os).trace ∧
      (prepare flags agentEnv executorInfo sandboxDirectory os).sinks =
        []) ∧
    ((prepare flags agentEnv executorInfo sandboxDirectory
        os).outcome.isFailure = true →
      Ev.pipeErr ∉
        (prepare flags agentEnv executorInfo sandboxDirectory os).trace →
      Ev.killOut ∉
        (prepare flags agentEnv executorInfo sandboxDirectory os).trace ∧
      (prepare flags agentEnv executorInfo sandboxDirectory os).killed =
        []) := by
  obtain ⟨fw, ex, labs⟩ := executorInfo
  obtain ⟨p1, c1, s1, p2, c2, s2⟩ := os
  by_cases hn : flags.libprocess_num_worker_threads = 0 <;>
    rcases fw with _ | f <;>
    rcases p1 with e1 | ⟨r1, w1⟩ <;>
    rcases c1 with _ | e2 <;>
    rcases s1 with e3 | pid1 <;>
    rcases p2 with e4 | ⟨r2, w2⟩ <;>
    rcases c2 with _ | e5 <;>
    rcases s2 with e6 | pid2 <;>
    simp [prepare, hn, outBeforeErr, isOutEv, isErrEv, Outcome.isFailure]

/-- Witness for claim C8 on the run whose second pipe allocation fails:
the stdout steps come first and the stdout sink is killed before the
failure is returned. -/
theorem claim_C8_witness :
    outBeforeErr (prepare wFlags sampleEnv wExecutorInfo wSandbox
      errPipeOS).trace = true ∧
    (prepare wFlags sampleEnv wExecutorInfo wSandbox errPipeOS).trace.take 3
      = [Ev.pipeOut, Ev.cloexecOut, Ev.spawnOut] ∧
    Ev.killOut ∈
      (prepare wFlags sampleEnv wExecutorInfo wSandbox errPipeOS).trace ∧
    (prepare wFlags sampleEnv wExecutorInfo wSandbox errPipeOS).sinks =
      [] :=
  ⟨(claim_C8 wFlags sampleEnv wExecutorInfo wSandbox errPipeOS).1,
   (claim_C8 wFlags sampleEnv wExecutorInfo wSandbox errPipeOS).2.1
     (by decide),
   ((claim_C8 wFlags sampleEnv wExecutorInfo wSandbox errPipeOS).2.2.1
     (by decide) (by decide)).1,
   ((claim_C8 wFlags sampleEnv wExecutorInfo wSandbox errPipeOS).2.2.1
     (by decide) (by decide)).2⟩

/-! ### Claim C9 -/

theorem sinkLabels_shape (flags : Flags) (agentEnv : Env)
    (executorInfo : ExecutorInfo) (sandboxDirectory : String) (os : OS)
    (l : String)
    (h : (prepare flags agentEnv executorInfo sandboxDirectory
      os).sinkLabels = some l) :
    ∃ fId, executorInfo.framework_id = some fId ∧
      l = labelsJson (buildLabels executorInfo fId sandboxDirectory) := by
  obtain ⟨fw, ex, labs⟩ := executorInfo
  obtain ⟨p1, c1, s1, p2, c2, s2⟩ := os
  by_cases hn : flags.libprocess_num_worker_threads = 0
  · simp [prepare, hn] at h
  · rcases fw with _ | f
    · simp [prepare, hn] at h
    · rcases p1 with e1 | ⟨r1, w1⟩
      · simp [prepare, hn] at h
      · rcases c1 with _ | e2
        · rcases s1 with e3 | pid1 <;> rcases p2 with e4 | ⟨r2, w2⟩ <;>
            rcases c2 with _ | e5 <;> rcases s2 with e6 | pid2 <;>
            simp [prepare, hn] at h <;>
            exact ⟨f, rfl, h.symm⟩
        · simp [prepare, hn] at h

/-- Claim C9: label serialization is deterministic — any two `prepare`
calls sharing the executor info and sandbox directory (while the flags,
agent environment and OS outcomes may differ arbitrarily) that hand a
serialized labels string to their sink subprocesses hand the
byte-identical string. -/
theorem claim_C9 (flags1 flags2 : Flags) (env1 env2 : Env)
    (executorInfo : ExecutorInfo) (sandboxDirectory : String)
    (os1 os2 : OS) (l1 l2 : String)
    (h1 : (prepare flags1 env1 executorInfo sandboxDirectory
      os1).sinkLabels = some l1)
    (h2 : (prepare flags2 env2 executorInfo sandboxDirectory
      os2).sinkLabels = some l2) :
    l1 = l2 := by
  obtain ⟨f1, hf1, he1⟩ :=
    sinkLabels_shape flags1 env1 executorInfo sandboxDirectory os1 l1 h1
  obtain ⟨f2, hf2, he2⟩ :=
    sinkLabels_shape flags2 env2 executorInfo sandboxDirectory os2 l2 h2
  rw [hf1] at hf2
  cases Option.some.inj hf2
  rw [he1, he2]

/-- Witness for claim C9: two runs with different flags, environments
and OS outcomes serialize the same labels string
(the spec scenario's three identity labels). -/
theorem claim_C9_witness :
    labelsJson (buildLabels wExecutorInfo "fw-1" wSandbox) =
      "\x7b\"labels\":[\x7b\"key\":\"FRAMEWORK_ID\",\"value\":\"fw-1\"\x7d,\x7b\"key\":\"EXECUTOR_ID\",\"value\":\"ex-1\"\x7d,\x7b\"key\":\"CONTAINER_ID\",\"value\":\"abcd1234\"\x7d]\x7d" :=
  claim_C9 wFlags ⟨4, "/elsewhere"⟩ sampleEnv [] wExecutorInfo wSandbox
    okOS errPipeOS _ _ rfl rfl
